import Mathlib

/-!
Verification of the Map component of the mudhumeni field dashboard
(`src/components/Map.tsx`), embedded shallowly: JavaScript numbers are
modelled as rationals, React state writes become explicit state passing,
and imperative `flyTo` calls on the map library are modelled as emitted
camera commands.
-/

namespace FieldDashboard

/-- Represents geographical coordinates with latitude and longitude
(`interface Coordinates` in `Map.tsx`). -/
structure Coordinates where
  longitude : ℚ
  latitude : ℚ
deriving DecidableEq, Repr

/-- Available map styles for the application: the keys of `MAP_STYLES`,
which is also the type of the `mapStyle` state
(`useState<'STREETS' | 'SATELLITE'>`). -/
inductive MapStyleName where
  | STREETS
  | SATELLITE
deriving DecidableEq, Repr

/-- The `~2km threshold (about the size of a small city neighborhood)`:
`const MOVEMENT_THRESHOLD = 0.02`. -/
def MOVEMENT_THRESHOLD : ℚ := 0.02

/-- The view state carried by a map move event
(`event.viewState` in `handleMove`). -/
structure ViewState where
  longitude : ℚ
  latitude : ℚ
  zoom : ℚ
deriving DecidableEq, Repr

/-- The pieces of React state of the `Map` component that the handlers
read and write: `coordinates` and `selectedLocation` from the
`useCoordinates` context, and the component-local `zoom`, `mapStyle`,
`lastWeatherCoordinates` and `loading` states. -/
structure MapState where
  coordinates : Coordinates
  zoom : ℚ
  mapStyle : MapStyleName
  selectedLocation : Option Coordinates
  lastWeatherCoordinates : Option Coordinates
  loading : Bool
deriving DecidableEq, Repr

/-- A `flyTo` call on the map reference, recorded as data:
center, zoom, pitch and bearing requested of the map library. -/
structure FlyToCmd where
  centerLongitude : ℚ
  centerLatitude : ℚ
  zoom : ℚ
  pitch : ℚ
  bearing : ℚ
deriving DecidableEq, Repr

/-- The test `distanceMoved > MOVEMENT_THRESHOLD` of `handleMove`, where
`distanceMoved = Math.sqrt((longitude - last.longitude)^2 +
(latitude - last.latitude)^2)`.  Both sides of the comparison are
nonnegative, so over the rationals the square root is eliminated by
squaring: `sqrt s > t ↔ s > t^2` for `t ≥ 0` (proved against `Real.sqrt`
in `movedBeyondThreshold_iff_sqrt` below). -/
def movedBeyondThreshold (longitude latitude : ℚ) (last : Coordinates) : Bool :=
  decide (MOVEMENT_THRESHOLD ^ 2 <
    (longitude - last.longitude) ^ 2 + (latitude - last.latitude) ^ 2)

/-- Handles map movement and updates coordinates and zoom level
(`handleMove`); refreshes `lastWeatherCoordinates` when it is null or when the
movement exceeds `MOVEMENT_THRESHOLD`. -/
def handleMove (s : MapState) (event : ViewState) : MapState :=
  let s1 := { s with
    coordinates := ⟨event.longitude, event.latitude⟩,
    zoom := event.zoom }
  match s.lastWeatherCoordinates with
  | some last =>
      if movedBeyondThreshold event.longitude event.latitude last then
        { s1 with lastWeatherCoordinates := some ⟨event.longitude, event.latitude⟩ }
      else
        s1
  | none =>
      { s1 with lastWeatherCoordinates := some ⟨event.longitude, event.latitude⟩ }

/-- Updates map coordinates and animates to the new location
(`updateCoordinates`) (`flyTo` with zoom 16, pitch 60, bearing -20), then records the
location as selected and as the last weather-fetch coordinate. -/
def updateCoordinates (s : MapState) (newCoordinates : Coordinates) :
    MapState × FlyToCmd :=
  ({ s with
      coordinates := newCoordinates,
      selectedLocation := some newCoordinates,
      lastWeatherCoordinates := some newCoordinates },
   { centerLongitude := newCoordinates.longitude,
     centerLatitude := newCoordinates.latitude,
     zoom := 16, pitch := 60, bearing := -20 })

/-- Handles location selection from the search bar
(`handleSelectLocation`) — selects the location, runs `updateCoordinates`, and sets zoom 14. -/
def handleSelectLocation (s : MapState) (longitude latitude : ℚ) :
    MapState × FlyToCmd :=
  let newLocation : Coordinates := ⟨longitude, latitude⟩
  let s1 := { s with selectedLocation := some newLocation }
  let r := updateCoordinates s1 newLocation
  ({ r.1 with zoom := 14 }, r.2)

/-- A browser keyboard event, restricted to the fields `handleKeyPress`
reads: `ctrlKey` and `key`. -/
structure KeyboardEvent where
  ctrlKey : Bool
  key : String
deriving DecidableEq, Repr

/-- Resets the view to its initial state when Ctrl+Q is pressed
(`handleKeyPress`) —
`flyTo` the fixed default center at zoom 2, pitch 0, bearing 0, set the
coordinates to that center, zoom to 2, and clear both `selectedLocation`
and `lastWeatherCoordinates`.  Returns the new state together with the
`flyTo` command issued, if any. -/
def handleKeyPress (s : MapState) (event : KeyboardEvent) :
    MapState × Option FlyToCmd :=
  if event.ctrlKey && event.key == "q" then
    ({ s with
        coordinates := { longitude := -4.649779746122704,
                         latitude := 17.08385049329921 },
        zoom := 2,
        selectedLocation := none,
        lastWeatherCoordinates := none },
     some { centerLongitude := -4.649779746122704,
            centerLatitude := 17.08385049329921,
            zoom := 2, pitch := 0, bearing := 0 })
  else
    (s, none)

/-- The initial value of the `mapStyle` state: `useState('STREETS')`. -/
def initialMapStyle : MapStyleName := .STREETS

/-- The `onToggle` callback of `ChangeMapStyleButton`:
`current === 'STREETS' ? 'SATELLITE' : 'STREETS'`. -/
def toggleMapStyle (current : MapStyleName) : MapStyleName :=
  if current = .STREETS then .SATELLITE else .STREETS

/-- The props passed to `CoordinatesDisplay` in the render:
`coordinates.longitude`, `coordinates.latitude` and `zoom`. -/
def coordinatesDisplayProps (s : MapState) : Coordinates × ℚ :=
  (s.coordinates, s.zoom)

/-- The coordinates the weather panel shows, when it is rendered:
`WeatherDisplay` is mounted exactly when `zoom >= 14 &&
lastWeatherCoordinates`, with `lastWeatherCoordinates` as its props. -/
def weatherDisplayProps (s : MapState) : Option Coordinates :=
  if 14 ≤ s.zoom then s.lastWeatherCoordinates else none

/-- A sample component state whose last weather fetch happened at the
origin, used to instantiate the theorems below on concrete inputs. -/
def sampleState : MapState :=
  { coordinates := ⟨0, 0⟩, zoom := 14, mapStyle := .STREETS,
    selectedLocation := none, lastWeatherCoordinates := some ⟨0, 0⟩,
    loading := false }

/-- A sample component state in which no weather fetch has happened yet
(`lastWeatherCoordinates` is null). -/
def sampleStateNoWeather : MapState :=
  { coordinates := ⟨0, 0⟩, zoom := 2, mapStyle := .STREETS,
    selectedLocation := none, lastWeatherCoordinates := none,
    loading := false }

/-! ## General lemmas about the handlers -/

/-- The squared-distance test of `handleMove` agrees with the source's
`Math.sqrt` formulation: it passes exactly when the Euclidean distance
between the event and the last weather coordinates exceeds `0.02`. -/
theorem movedBeyondThreshold_iff_sqrt (longitude latitude : ℚ) (last : Coordinates) :
    movedBeyondThreshold longitude latitude last = true ↔
    (0.02 : ℝ) < Real.sqrt (((longitude : ℝ) - (last.longitude : ℝ)) ^ 2 +
      ((latitude : ℝ) - (last.latitude : ℝ)) ^ 2) := by
  rw [movedBeyondThreshold, decide_eq_true_eq, Real.lt_sqrt (by norm_num)]
  rw [← Rat.cast_lt (K := ℝ)]
  push_cast
  norm_num [MOVEMENT_THRESHOLD]

/-- Negation of `movedBeyondThreshold_iff_sqrt`: the test fails exactly
when the Euclidean distance is at most `0.02`. -/
theorem not_movedBeyondThreshold_iff_sqrt (longitude latitude : ℚ) (last : Coordinates) :
    movedBeyondThreshold longitude latitude last = false ↔
    Real.sqrt (((longitude : ℝ) - (last.longitude : ℝ)) ^ 2 +
      ((latitude : ℝ) - (last.latitude : ℝ)) ^ 2) ≤ (0.02 : ℝ) := by
  rw [← not_lt, ← movedBeyondThreshold_iff_sqrt]
  simp

/-- The handler `handleMove` always writes the event's coordinates to the
`coordinates` state. -/
theorem handleMove_coordinates (s : MapState) (event : ViewState) :
    (handleMove s event).coordinates = ⟨event.longitude, event.latitude⟩ := by
  cases hlw : s.lastWeatherCoordinates <;> simp [handleMove, hlw]
  split <;> rfl

/-- The handler `handleMove` always writes the event's zoom to the `zoom`
state. -/
theorem handleMove_zoom (s : MapState) (event : ViewState) :
    (handleMove s event).zoom = event.zoom := by
  cases hlw : s.lastWeatherCoordinates <;> simp [handleMove, hlw]
  split <;> rfl

/-- When no weather coordinate exists, `handleMove` records the event's
coordinates as the weather coordinate. -/
theorem handleMove_lastWeather_of_none (s : MapState) (event : ViewState)
    (h : s.lastWeatherCoordinates = none) :
    (handleMove s event).lastWeatherCoordinates =
      some ⟨event.longitude, event.latitude⟩ := by
  simp [handleMove, h]

/-- When the movement threshold is exceeded, `handleMove` records the
event's coordinates as the weather coordinate. -/
theorem handleMove_lastWeather_of_moved (s : MapState) (event : ViewState)
    (last : Coordinates) (h : s.lastWeatherCoordinates = some last)
    (hm : movedBeyondThreshold event.longitude event.latitude last = true) :
    (handleMove s event).lastWeatherCoordinates =
      some ⟨event.longitude, event.latitude⟩ := by
  simp [handleMove, h, hm]

/-- When the movement threshold is not exceeded, `handleMove` leaves the
weather coordinate unchanged. -/
theorem handleMove_lastWeather_of_not_moved (s : MapState) (event : ViewState)
    (last : Coordinates) (h : s.lastWeatherCoordinates = some last)
    (hm : movedBeyondThreshold event.longitude event.latitude last = false) :
    (handleMove s event).lastWeatherCoordinates = s.lastWeatherCoordinates := by
  simp [handleMove, h, hm]


/-! ## The claims -/

/-- C1: when a move event is handled with a non-null
`lastWeatherCoordinates`, the weather refetch is triggered
(`lastWeatherCoordinates` is updated to the event's coordinates) if the
Euclidean distance `sqrt(Δlon² + Δlat²)` to the previous weather
coordinates exceeds `0.02`, and `lastWeatherCoordinates` is left
unchanged when that distance is at most `0.02` (including exactly
`0.02`). -/
theorem weather_refetch_iff_distance (s : MapState) (event : ViewState)
    (last : Coordinates) (h : s.lastWeatherCoordinates = some last) :
    ((0.02 : ℝ) < Real.sqrt (((event.longitude : ℝ) - (last.longitude : ℝ)) ^ 2 +
        ((event.latitude : ℝ) - (last.latitude : ℝ)) ^ 2) →
      (handleMove s event).lastWeatherCoordinates =
        some ⟨event.longitude, event.latitude⟩) ∧
    (Real.sqrt (((event.longitude : ℝ) - (last.longitude : ℝ)) ^ 2 +
        ((event.latitude : ℝ) - (last.latitude : ℝ)) ^ 2) ≤ (0.02 : ℝ) →
      (handleMove s event).lastWeatherCoordinates = s.lastWeatherCoordinates) := by
  constructor
  · intro hd
    exact handleMove_lastWeather_of_moved s event last h
      ((movedBeyondThreshold_iff_sqrt _ _ _).mpr hd)
  · intro hd
    exact handleMove_lastWeather_of_not_moved s event last h
      ((not_movedBeyondThreshold_iff_sqrt _ _ _).mpr hd)

/-- Witness for C1: the refetch dichotomy instantiated at a concrete
state and move event (from the origin to longitude `3/100`). -/
theorem weather_refetch_iff_distance_witness :
    (sampleState.lastWeatherCoordinates = some ⟨0, 0⟩) ∧
    (((0.02 : ℝ) < Real.sqrt ((((3/100 : ℚ) : ℝ) - ((0 : ℚ) : ℝ)) ^ 2 +
        (((0 : ℚ) : ℝ) - ((0 : ℚ) : ℝ)) ^ 2) →
      (handleMove sampleState ⟨3/100, 0, 14⟩).lastWeatherCoordinates =
        some ⟨3/100, 0⟩) ∧
    (Real.sqrt ((((3/100 : ℚ) : ℝ) - ((0 : ℚ) : ℝ)) ^ 2 +
        (((0 : ℚ) : ℝ) - ((0 : ℚ) : ℝ)) ^ 2) ≤ (0.02 : ℝ) →
      (handleMove sampleState ⟨3/100, 0, 14⟩).lastWeatherCoordinates =
        sampleState.lastWeatherCoordinates)) :=
  ⟨by norm_num [sampleState],
   weather_refetch_iff_distance sampleState ⟨3/100, 0, 14⟩ ⟨0, 0⟩
     (by norm_num [sampleState])⟩

/-- Counterexample to C2: the current-location / search path
(`updateCoordinates`) changes `lastWeatherCoordinates` even for a move
of Euclidean distance `0.01 ≤ 0.02`, so not every write of the weather
coordinate is gated by the movement threshold. -/
theorem updateCoordinates_changes_weather_below_threshold :
    (updateCoordinates sampleState ⟨1/100, 0⟩).1.lastWeatherCoordinates ≠
      sampleState.lastWeatherCoordinates ∧
    Real.sqrt ((((1/100 : ℚ) : ℝ) - ((0 : ℚ) : ℝ)) ^ 2 +
      (((0 : ℚ) : ℝ) - ((0 : ℚ) : ℝ)) ^ 2) ≤ (0.02 : ℝ) := by
  constructor
  · norm_num [updateCoordinates, sampleState]
  · rw [Real.sqrt_le_left (by norm_num)]
    norm_num

/-- C2 (amended): only the move handler's write of the weather
coordinate is threshold-gated — during move handling with a previous
weather coordinate present, `lastWeatherCoordinates` changes its value
only when the Euclidean distance from the previous value to the event's
coordinates exceeds `0.02`. -/
theorem move_weather_change_requires_distance (s : MapState) (event : ViewState)
    (last : Coordinates) (h : s.lastWeatherCoordinates = some last)
    (hchange : (handleMove s event).lastWeatherCoordinates ≠
      s.lastWeatherCoordinates) :
    (0.02 : ℝ) < Real.sqrt (((event.longitude : ℝ) - (last.longitude : ℝ)) ^ 2 +
      ((event.latitude : ℝ) - (last.latitude : ℝ)) ^ 2) := by
  rw [← movedBeyondThreshold_iff_sqrt]
  by_contra hb
  rw [Bool.not_eq_true] at hb
  exact hchange (handleMove_lastWeather_of_not_moved s event last h hb)

/-- Witness for the amended C2: a concrete move event that does change
the weather coordinate, and the resulting distance bound. -/
theorem move_weather_change_requires_distance_witness :
    (sampleState.lastWeatherCoordinates = some ⟨0, 0⟩) ∧
    ((handleMove sampleState ⟨3/100, 0, 14⟩).lastWeatherCoordinates ≠
      sampleState.lastWeatherCoordinates) ∧
    ((0.02 : ℝ) < Real.sqrt ((((3/100 : ℚ) : ℝ) - ((0 : ℚ) : ℝ)) ^ 2 +
      (((0 : ℚ) : ℝ) - ((0 : ℚ) : ℝ)) ^ 2)) :=
  ⟨by norm_num [sampleState],
   by norm_num [handleMove, sampleState, movedBeyondThreshold, MOVEMENT_THRESHOLD],
   move_weather_change_requires_distance sampleState ⟨3/100, 0, 14⟩ ⟨0, 0⟩
     (by norm_num [sampleState])
     (by norm_num [handleMove, sampleState, movedBeyondThreshold, MOVEMENT_THRESHOLD])⟩

/-- Counterexample to C3: after a small move (distance `0.01`) the
weather panel is rendered (zoom `14`, weather coordinate present) but
displays the old weather coordinates `(0, 0)`, not the current
viewport's coordinates `(1/100, 0)`. -/
theorem weather_panel_lags_viewport :
    weatherDisplayProps (handleMove sampleState ⟨1/100, 0, 14⟩) = some ⟨0, 0⟩ ∧
    (handleMove sampleState ⟨1/100, 0, 14⟩).coordinates = ⟨1/100, 0⟩ ∧
    (⟨0, 0⟩ : Coordinates) ≠ (⟨1/100, 0⟩ : Coordinates) := by
  refine ⟨?_, ?_, ?_⟩
  · norm_num [weatherDisplayProps, handleMove, sampleState, movedBeyondThreshold,
      MOVEMENT_THRESHOLD]
  · norm_num [handleMove, sampleState, movedBeyondThreshold, MOVEMENT_THRESHOLD]
  · norm_num

/-- C3 (amended): whenever the weather panel is rendered after a move
event, the coordinates it displays weather for are within Euclidean
distance `0.02` of the current viewport's coordinates, rather than
equal to them. -/
theorem weather_panel_near_viewport (s : MapState) (event : ViewState)
    (w : Coordinates)
    (h : weatherDisplayProps (handleMove s event) = some w) :
    Real.sqrt ((((handleMove s event).coordinates.longitude : ℝ) - (w.longitude : ℝ)) ^ 2 +
      (((handleMove s event).coordinates.latitude : ℝ) - (w.latitude : ℝ)) ^ 2) ≤
      (0.02 : ℝ) := by
  rw [weatherDisplayProps] at h
  split at h
  case isFalse => exact absurd h (by simp)
  case isTrue =>
    rw [handleMove_coordinates]
    cases hlw : s.lastWeatherCoordinates with
    | none =>
        rw [handleMove_lastWeather_of_none s event hlw] at h
        obtain rfl : w = ⟨event.longitude, event.latitude⟩ := (Option.some_inj.mp h).symm
        simp
        norm_num
    | some last =>
        cases hm : movedBeyondThreshold event.longitude event.latitude last with
        | true =>
            rw [handleMove_lastWeather_of_moved s event last hlw hm] at h
            obtain rfl : w = ⟨event.longitude, event.latitude⟩ := (Option.some_inj.mp h).symm
            simp
            norm_num
        | false =>
            rw [handleMove_lastWeather_of_not_moved s event last hlw hm, hlw] at h
            obtain rfl : w = last := (Option.some_inj.mp h).symm
            exact (not_movedBeyondThreshold_iff_sqrt _ _ _).mp hm

/-- Witness for the amended C3: a first move to the origin at zoom `14`
renders the panel, and the displayed coordinates are within `0.02` of
the viewport. -/
theorem weather_panel_near_viewport_witness :
    (weatherDisplayProps (handleMove sampleStateNoWeather ⟨0, 0, 14⟩) = some ⟨0, 0⟩) ∧
    (Real.sqrt ((((handleMove sampleStateNoWeather ⟨0, 0, 14⟩).coordinates.longitude : ℝ) -
        ((0 : ℚ) : ℝ)) ^ 2 +
      (((handleMove sampleStateNoWeather ⟨0, 0, 14⟩).coordinates.latitude : ℝ) -
        ((0 : ℚ) : ℝ)) ^ 2) ≤ (0.02 : ℝ)) :=
  ⟨by norm_num [weatherDisplayProps, handleMove, sampleStateNoWeather],
   weather_panel_near_viewport sampleStateNoWeather ⟨0, 0, 14⟩ ⟨0, 0⟩
     (by norm_num [weatherDisplayProps, handleMove, sampleStateNoWeather])⟩

/-- C4: pressing Ctrl+Q resets the view to the one fixed default, for
every prior state — coordinates become longitude `-4.649779746122704`,
latitude `17.08385049329921`; zoom becomes `2`; a `flyTo` with that
center, zoom `2`, pitch `0` and bearing `0` is requested of the map; and
both `selectedLocation` and `lastWeatherCoordinates` become null. -/
theorem ctrl_q_resets_view (s : MapState) (event : KeyboardEvent)
    (hc : event.ctrlKey = true) (hk : event.key = "q") :
    handleKeyPress s event =
      ({ s with
          coordinates := { longitude := -4.649779746122704,
                           latitude := 17.08385049329921 },
          zoom := 2,
          selectedLocation := none,
          lastWeatherCoordinates := none },
       some { centerLongitude := -4.649779746122704,
              centerLatitude := 17.08385049329921,
              zoom := 2, pitch := 0, bearing := 0 }) := by
  simp [handleKeyPress, hc, hk]

/-- Witness for C4: the reset applied to a concrete state. -/
theorem ctrl_q_resets_view_witness :
    ((⟨true, "q"⟩ : KeyboardEvent).ctrlKey = true) ∧
    ((⟨true, "q"⟩ : KeyboardEvent).key = "q") ∧
    (handleKeyPress sampleState ⟨true, "q"⟩ =
      ({ sampleState with
          coordinates := { longitude := -4.649779746122704,
                           latitude := 17.08385049329921 },
          zoom := 2,
          selectedLocation := none,
          lastWeatherCoordinates := none },
       some { centerLongitude := -4.649779746122704,
              centerLatitude := 17.08385049329921,
              zoom := 2, pitch := 0, bearing := 0 })) :=
  ⟨rfl, rfl, ctrl_q_resets_view sampleState ⟨true, "q"⟩ rfl rfl⟩

/-- C5: for every move event, the displayed coordinates and zoom are set
to exactly the event's view-state longitude, latitude and zoom,
unconditionally — the threshold check never gates the live coordinate
display. -/
theorem move_sets_display_unconditionally (s : MapState) (event : ViewState) :
    coordinatesDisplayProps (handleMove s event) =
      (⟨event.longitude, event.latitude⟩, event.zoom) := by
  rw [coordinatesDisplayProps, handleMove_coordinates, handleMove_zoom]

/-- C6: the selected map style is always a member of
`{STREETS, SATELLITE}` — it is `STREETS` initially, the toggle maps
`STREETS` to `SATELLITE` and `SATELLITE` to `STREETS`, and the toggle
never leaves the two-element enum. -/
theorem map_style_two_values :
    initialMapStyle = MapStyleName.STREETS ∧
    toggleMapStyle .STREETS = .SATELLITE ∧
    toggleMapStyle .SATELLITE = .STREETS ∧
    ∀ st : MapStyleName,
      toggleMapStyle st = .STREETS ∨ toggleMapStyle st = .SATELLITE := by
  refine ⟨rfl, rfl, rfl, ?_⟩
  intro st
  cases st <;> simp [toggleMapStyle]

/-- C7: a move event processed while `lastWeatherCoordinates` is null
sets it to the event's coordinates unconditionally, with no distance
check. -/
theorem first_move_sets_weather_unconditionally (s : MapState) (event : ViewState)
    (h : s.lastWeatherCoordinates = none) :
    (handleMove s event).lastWeatherCoordinates =
      some ⟨event.longitude, event.latitude⟩ :=
  handleMove_lastWeather_of_none s event h

/-- Witness for C7: the first move from a weatherless state records the
event's coordinates. -/
theorem first_move_sets_weather_unconditionally_witness :
    (sampleStateNoWeather.lastWeatherCoordinates = none) ∧
    ((handleMove sampleStateNoWeather ⟨5, 6, 3⟩).lastWeatherCoordinates =
      some ⟨5, 6⟩) :=
  ⟨rfl, first_move_sets_weather_unconditionally sampleStateNoWeather ⟨5, 6, 3⟩ rfl⟩

/-- C8: the move handler modifies only coordinates, zoom and
`lastWeatherCoordinates` — for every move event, `selectedLocation`,
`mapStyle` and the `loading` flag are left unchanged. -/
theorem move_frame_effect (s : MapState) (event : ViewState) :
    (handleMove s event).selectedLocation = s.selectedLocation ∧
    (handleMove s event).mapStyle = s.mapStyle ∧
    (handleMove s event).loading = s.loading := by
  cases hlw : s.lastWeatherCoordinates <;> simp [handleMove, hlw]
  split <;> exact ⟨rfl, rfl, rfl⟩

/-- C9: the map-style toggle is an involution — applying it twice
returns the original style, for both styles. -/
theorem toggle_style_involutive (st : MapStyleName) :
    toggleMapStyle (toggleMapStyle st) = st := by
  cases st <;> rfl

end FieldDashboard
